import Mathlib

/-!
Verification of the job-status reconciliation engine of the
llm-batch-api-benchmark repository: the canonical status model and report
serialization (src/data_models.py), the three provider adapters
(src/providers/openai.py, src/providers/google.py, src/providers/anthropic.py)
and the reconciliation loops of src/providers/base.py.

Python floats and datetimes are idealized as exact fractions (`Frac`, an
integer numerator over a positive natural denominator, kept unnormalized so
that every operation is structural and kernel-computable).  Vendor SDK calls
(job retrieval, cancellation, result-file download) are passed in as explicit
oracle arguments; the number of provider calls made by a code path is returned
alongside its result.
-/

/-- Exact fraction `num / den`.  Stands in for Python floats and for
`datetime` values (seconds since the epoch).  `den` is kept positive by
construction of all operations below; values are never renormalized, so
syntactic equality of the results of the embedded code mirrors value
equality of the Python numbers they model. -/
structure Frac where
  num : Int
  den : Nat
deriving DecidableEq, Repr

/-- Integer-valued fraction. -/
def Frac.ofInt (n : Int) : Frac := ⟨n, 1⟩

/-- Difference of two fractions, by cross multiplication. -/
def Frac.sub (a b : Frac) : Frac :=
  ⟨a.num * (b.den : Int) - b.num * (a.den : Int), a.den * b.den⟩

/-- Value-level strict order on fractions (cross multiplication; valid
because denominators are positive). -/
def Frac.lt (a b : Frac) : Prop :=
  a.num * (b.den : Int) < b.num * (a.den : Int)

instance (a b : Frac) : Decidable (a.lt b) :=
  inferInstanceAs (Decidable (_ < _))

/-- `timedelta(days=1)`: the 24-hour force-cancel threshold, in seconds. -/
def oneDay : Frac := Frac.ofInt 86400

/-- Python `round(x, 2)`: round to two decimal places, ties to even.
`r` below is the (nonnegative, when `den > 0`) remainder of `num * 100` by
`den`, so comparing `2 * r` with `den` compares the fractional part of
`x * 100` with one half. -/
def pyRound2 (x : Frac) : Frac :=
  let n100 : Int := x.num * 100
  let f : Int := Int.fdiv n100 (x.den : Int)
  let r : Int := n100 - f * (x.den : Int)
  let chosen : Int :=
    if 2 * r < (x.den : Int) then f
    else if (x.den : Int) < 2 * r then f + 1
    else if f % 2 = 0 then f else f + 1
  ⟨chosen, 100⟩

/-- The canonical status enumeration of src/data_models.py. -/
inductive UserStatus where
  | SUCCEEDED
  | FAILED
  | CANCELLED_TIMED_OUT
  | IN_PROGRESS
  | CANCELLED_ON_DEMAND
  | UNKNOWN
deriving DecidableEq, Repr

/-- The string value of each enum member, as declared in src/data_models.py. -/
def UserStatus.value : UserStatus → String
  | .SUCCEEDED => "SUCCEEDED"
  | .FAILED => "FAILED"
  | .CANCELLED_TIMED_OUT => "CANCELLED_TIMED_OUT"
  | .IN_PROGRESS => "IN_PROGRESS"
  | .CANCELLED_ON_DEMAND => "CANCELLED_ON_DEMAND"
  | .UNKNOWN => "UNKNOWN"

/-- `UserStatus(value)`: the enum lookup performed by `JobReport.from_json`;
`none` models the `ValueError` Python raises on an unknown token. -/
def UserStatus.ofValue (v : String) : Option UserStatus :=
  if v = "SUCCEEDED" then some .SUCCEEDED
  else if v = "FAILED" then some .FAILED
  else if v = "CANCELLED_TIMED_OUT" then some .CANCELLED_TIMED_OUT
  else if v = "IN_PROGRESS" then some .IN_PROGRESS
  else if v = "CANCELLED_ON_DEMAND" then some .CANCELLED_ON_DEMAND
  else if v = "UNKNOWN" then some .UNKNOWN
  else none

/-- `UserStatus.is_terminal` from src/data_models.py: membership in the list
`[SUCCEEDED, FAILED, CANCELLED_TIMED_OUT, CANCELLED_ON_DEMAND]`. -/
def UserStatus.is_terminal (status : UserStatus) : Bool :=
  status ∈ [UserStatus.SUCCEEDED, UserStatus.FAILED,
            UserStatus.CANCELLED_TIMED_OUT, UserStatus.CANCELLED_ON_DEMAND]

/-- `ServiceReportedJobDetails` from src/data_models.py. -/
structure ServiceReportedJobDetails where
  job_id : String
  model : String
  service_job_status : String
  created_at : String
  ended_at : Option String := none
  total_requests : Option Int := none
  completed_requests : Option Int := none
  failed_requests : Option Int := none
deriving DecidableEq, Repr

/-- `JobReport` from src/data_models.py.  The `total_tokens` field is
Modelled from the spec: it is absent from the stale copy of
src/data_models.py but is defined by §3 of the spec
(`total_tokens: int|null`), is passed by every provider adapter when
constructing a `JobReport`, and must carry a `None` default for
`from_json` to accept the persisted records used by the tests, which lack
the key. -/
structure JobReport where
  provider : String
  job_id : String
  user_assigned_status : UserStatus
  latency_seconds : Option Frac
  total_tokens : Option Int := none
  service_reported_details : ServiceReportedJobDetails
deriving DecidableEq, Repr

/-- JSON values, as produced by `json.dumps`/`json.loads` on the records of
this program: objects, strings, integers, floats and null.  Python keeps
int and float distinct through a dump/load cycle, hence separate
constructors. -/
inductive JVal where
  | null
  | s (v : String)
  | i (n : Int)
  | f (q : Frac)
  | obj (fields : List (String × JVal))

/-- Dictionary key lookup, the semantics of `data.get(key)` on the parsed
object (keys produced by `asdict` are unique). -/
def lookupField : List (String × JVal) → String → Option JVal
  | [], _ => none
  | (k, v) :: rest, key => if k = key then some v else lookupField rest key

/-- Field access on an object value. -/
def JVal.getField : JVal → String → Option JVal
  | .obj fs, key => lookupField fs key
  | _, _ => none

/-- Encoding of an optional string field (`None` becomes JSON null). -/
def optStrJ : Option String → JVal
  | none => .null
  | some v => .s v

/-- Encoding of an optional int field. -/
def optIntJ : Option Int → JVal
  | none => .null
  | some n => .i n

/-- Encoding of an optional float field. -/
def optFracJ : Option Frac → JVal
  | none => .null
  | some q => .f q

/-- `asdict` on `ServiceReportedJobDetails`: the field dictionary in
declaration order. -/
def ServiceReportedJobDetails.asdict (d : ServiceReportedJobDetails) :
    List (String × JVal) :=
  [("job_id", .s d.job_id),
   ("model", .s d.model),
   ("service_job_status", .s d.service_job_status),
   ("created_at", .s d.created_at),
   ("ended_at", optStrJ d.ended_at),
   ("total_requests", optIntJ d.total_requests),
   ("completed_requests", optIntJ d.completed_requests),
   ("failed_requests", optIntJ d.failed_requests)]

/-- `JobReport.to_json` from src/data_models.py:
`json.dumps(asdict(self), default=default_serializer)`, modelled down to the
JSON value it writes (the text layer of `json.dumps` is a faithful rendering
of this value).  The enum is serialized through its `.value` string by the
custom serializer. -/
def JobReport.to_json (r : JobReport) : JVal :=
  .obj [("provider", .s r.provider),
        ("job_id", .s r.job_id),
        ("user_assigned_status", .s r.user_assigned_status.value),
        ("latency_seconds", optFracJ r.latency_seconds),
        ("total_tokens", optIntJ r.total_tokens),
        ("service_reported_details", .obj r.service_reported_details.asdict)]

/-- The six keyword names `JobReport(**data)` accepts. -/
def reportKeys : List String :=
  ["provider", "job_id", "user_assigned_status", "latency_seconds",
   "total_tokens", "service_reported_details"]

/-- The eight keyword names `ServiceReportedJobDetails(**d)` accepts. -/
def detailsKeys : List String :=
  ["job_id", "model", "service_job_status", "created_at", "ended_at",
   "total_requests", "completed_requests", "failed_requests"]

/-- A required string field of a constructor call.  The Python dataclass
constructor performs no type check; a value here is required to carry the
declared type of its field, a divergence only on inputs no code path of the
program produces. -/
def getStrField (fs : List (String × JVal)) (key : String) :
    Except String String :=
  match lookupField fs key with
  | some (.s v) => .ok v
  | _ => .error ("missing or non-string field " ++ key)

/-- An optional (defaulted to `None`) string field. -/
def getOptStrField (fs : List (String × JVal)) (key : String) :
    Except String (Option String) :=
  match lookupField fs key with
  | none => .ok none
  | some .null => .ok none
  | some (.s v) => .ok (some v)
  | some _ => .error ("non-string field " ++ key)

/-- An optional (defaulted to `None`) integer field. -/
def getOptIntField (fs : List (String × JVal)) (key : String) :
    Except String (Option Int) :=
  match lookupField fs key with
  | none => .ok none
  | some .null => .ok none
  | some (.i n) => .ok (some n)
  | some _ => .error ("non-integer field " ++ key)

/-- The `latency_seconds` field: required (no dataclass default), nullable;
a JSON integer is accepted into the float-typed field the way Python would
accept it. -/
def getLatencyField (fs : List (String × JVal)) :
    Except String (Option Frac) :=
  match lookupField fs "latency_seconds" with
  | some .null => .ok none
  | some (.f q) => .ok (some q)
  | some (.i n) => .ok (some (Frac.ofInt n))
  | _ => .error "missing or non-numeric field latency_seconds"

/-- `ServiceReportedJobDetails(**d)` on a parsed JSON object: unknown keys
are rejected (`TypeError`), the four fields without defaults are required. -/
def ServiceReportedJobDetails.from_obj (fs : List (String × JVal)) :
    Except String ServiceReportedJobDetails := do
  unless fs.all (fun kv => detailsKeys.contains kv.1) do
    throw "unexpected keyword argument for ServiceReportedJobDetails"
  let jobId ← getStrField fs "job_id"
  let model ← getStrField fs "model"
  let serviceStatus ← getStrField fs "service_job_status"
  let createdAt ← getStrField fs "created_at"
  let endedAt ← getOptStrField fs "ended_at"
  let totalReq ← getOptIntField fs "total_requests"
  let completedReq ← getOptIntField fs "completed_requests"
  let failedReq ← getOptIntField fs "failed_requests"
  .ok ⟨jobId, model, serviceStatus, createdAt, endedAt, totalReq,
       completedReq, failedReq⟩

/-- `JobReport.from_json` from src/data_models.py: parse the line, convert
`user_assigned_status` through the `UserStatus` enum (a `ValueError`, here an
error value, on an unknown token — the loud-rejection invariant), rebuild the
nested `ServiceReportedJobDetails`, then `cls(**data)`: unknown keys are
rejected and every field without a default is required.  A missing
`total_tokens` key falls back to the field default `None`.  A null or
missing status or details value, which `cls(**data)` would accept unchecked
into the wrongly-typed field, is modelled as an error; no code path of the
program writes such a record. -/
def JobReport.from_json (j : JVal) : Except String JobReport :=
  match j with
  | .obj fs => do
    unless fs.all (fun kv => reportKeys.contains kv.1) do
      throw "unexpected keyword argument for JobReport"
    let ua ←
      match lookupField fs "user_assigned_status" with
      | some (.s v) =>
        match UserStatus.ofValue v with
        | some st => Except.ok st
        | none => Except.error ("not a valid UserStatus: " ++ v)
      | _ => Except.error "missing user_assigned_status"
    let det ←
      match lookupField fs "service_reported_details" with
      | some (.obj dfs) => ServiceReportedJobDetails.from_obj dfs
      | _ => Except.error "missing service_reported_details"
    let provider ← getStrField fs "provider"
    let jobId ← getStrField fs "job_id"
    let lat ← getLatencyField fs
    let tok ← getOptIntField fs "total_tokens"
    .ok ⟨provider, jobId, ua, lat, tok, det⟩
  | _ => .error "not a JSON object"

/-- Truthiness of an optional number (`if job.completed_at:` in Python:
absent or zero is falsy). -/
def optFracTruthy : Option Frac → Bool
  | none => false
  | some q => !(q.num = 0)

/-- Truthiness of an optional string (`if job.output_file_id:` in Python:
absent or empty is falsy). -/
def optStrTruthy : Option String → Bool
  | none => false
  | some v => !(v = "")

/-- ISO-8601 rendering of a timestamp (`datetime.isoformat`), abstracted as
an injective printing of the value; no code path of the program inspects the
rendered text. -/
def isoUtc (t : Frac) : String :=
  toString t.num ++ "/" ++ toString t.den ++ "Z"

/-- `BatchProvider._should_cancel_for_timeout` from src/providers/base.py:
the job creation time lies before `now - timedelta(days=1)`. -/
def should_cancel_for_timeout (job_create_time now : Frac) : Bool :=
  decide (job_create_time.lt (now.sub oneDay))

/-- `BatchProvider._should_skip_job` from src/providers/base.py: the job
creation time lies before `now - timedelta(hours=36)`. -/
def should_skip_job (job_create_time now : Frac) : Bool :=
  decide (job_create_time.lt (now.sub (Frac.ofInt 129600)))

/-- Modelled from the spec: `ProviderJobStatus`, the per-provider known
status vocabulary read by `BatchProvider._validate_and_create_report`, is
imported from data_models by src/providers/base.py but missing from the copy
of src/data_models.py; each list is reconstructed from the corresponding
provider status enum present in src/providers (OpenAIJobStatus,
GoogleJobStatus, AnthropicJobStatus) and §3 of the spec. -/
def ProviderJobStatus.OPENAI : List String :=
  ["validating", "in_progress", "finalizing", "completed", "failed",
   "cancelling", "cancelled", "expired"]

/-- Modelled from the spec: the Google vocabulary of `ProviderJobStatus`
(see `ProviderJobStatus.OPENAI`). -/
def ProviderJobStatus.GOOGLE : List String :=
  ["JOB_STATE_PENDING", "JOB_STATE_RUNNING", "JOB_STATE_SUCCEEDED",
   "JOB_STATE_FAILED", "JOB_STATE_CANCELLED", "JOB_STATE_EXPIRED"]

/-- Modelled from the spec: the Anthropic vocabulary of `ProviderJobStatus`
(see `ProviderJobStatus.OPENAI`). -/
def ProviderJobStatus.ANTHROPIC : List String :=
  ["in_progress", "ended"]

/-- The raw OpenAI batch object, projected to the attributes the adapter
reads.  `created_at` and `completed_at` are epoch timestamps
(`completed_at` nullable); the request counts are the three integers of
`job.request_counts`. -/
structure OpenAIJob where
  id : String
  status : String
  created_at : Frac
  completed_at : Option Frac
  model : String
  rc_total : Int
  rc_completed : Int
  rc_failed : Int
  output_file_id : Option String
deriving DecidableEq, Repr

/-- The raw Google batch object, projected to the attributes the adapter
reads.  `end_time` is a nullable datetime: a present datetime is always
truthy in Python, so only presence is tested.  `dest_file_name` collapses
`job.dest and job.dest.file_name`. -/
structure GoogleJob where
  name : String
  state_name : String
  create_time : Frac
  end_time : Option Frac
  model : String
  dest_file_name : Option String
deriving DecidableEq, Repr

/-- The raw Anthropic batch object, projected to the attributes the adapter
reads; the request counts are the four integers of `job.request_counts`. -/
structure AnthropicJob where
  id : String
  processing_status : String
  created_at : Frac
  ended_at : Option Frac
  rc_succeeded : Int
  rc_errored : Int
  rc_expired : Int
  rc_canceled : Int
  results_url : Option String
deriving DecidableEq, Repr

/-- The outcome of downloading and line-parsing a results artifact, the
collaborator call of the token-accounting step: an error models any
exception the `try` block catches; a success carries the per-line usage
contributions that survive JSON decoding (a line whose decode fails, or
which lacks the usage path, contributes nothing and is simply absent). -/
def DownloadOutcome := Except Unit (List Int)

/-- `OpenAIProvider._calculate_total_tokens`: on a completed job with a
truthy `output_file_id`, download the result file and sum the
`usage.total_tokens` of every decodable line; any exception degrades to
`None`, as does the guard failing. -/
def openai_calculate_total_tokens (job : OpenAIJob)
    (download : DownloadOutcome) : Option Int :=
  if job.status = "completed" ∧ optStrTruthy job.output_file_id then
    match download with
    | .error _ => none
    | .ok contributions => some (contributions.foldl (· + ·) 0)
  else none

/-- `OpenAIProvider._create_report_from_provider_job`: the classify step of
the OpenAI adapter.  Returns the report and the number of cancellation
calls issued, or the `ValueError` text of the unexpected-status branch. -/
def openai_create_report (job : OpenAIJob) (now : Frac)
    (download : DownloadOutcome) : Except String (JobReport × Nat) :=
  let latency : Option Frac :=
    if job.status = "completed" ∧ optFracTruthy job.completed_at then
      some (pyRound2 ((job.completed_at.getD (Frac.ofInt 0)).sub job.created_at))
    else none
  let details : ServiceReportedJobDetails :=
    { job_id := job.id
      model := job.model
      service_job_status := job.status
      created_at := isoUtc job.created_at
      ended_at := if optFracTruthy job.completed_at then
          some (isoUtc (job.completed_at.getD (Frac.ofInt 0))) else none
      total_requests := some job.rc_total
      completed_requests := some job.rc_completed
      failed_requests := some job.rc_failed }
  let outcome : Except String (UserStatus × Nat) :=
    if job.status = "completed" then .ok (.SUCCEEDED, 0)
    else if job.status = "cancelled" then
      if optFracTruthy job.completed_at ∧
          oneDay.lt ((job.completed_at.getD (Frac.ofInt 0)).sub job.created_at)
      then .ok (.CANCELLED_TIMED_OUT, 0)
      else .ok (.CANCELLED_ON_DEMAND, 0)
    else if job.status = "failed" then .ok (.FAILED, 0)
    else if job.status = "expired" then .ok (.CANCELLED_TIMED_OUT, 0)
    else if job.status ∈ ["validating", "in_progress", "finalizing",
                          "cancelling"] then
      if should_cancel_for_timeout job.created_at now then
        .ok (.CANCELLED_TIMED_OUT, 1)
      else .ok (.IN_PROGRESS, 0)
    else .error ("Unexpected job status: " ++ job.status)
  match outcome with
  | .error e => .error e
  | .ok (userStatus, cancels) =>
    let totalTokens : Option Int :=
      if userStatus = .SUCCEEDED then
        openai_calculate_total_tokens job download
      else none
    .ok ({ provider := "openai"
           job_id := job.id
           user_assigned_status := userStatus
           latency_seconds := latency
           total_tokens := totalTokens
           service_reported_details := details }, cancels)

/-- `BatchProvider._validate_and_create_report` instantiated at the OpenAI
adapter: the raw `status` attribute must belong to the OpenAI vocabulary,
otherwise the `Unknown job status` `ValueError` is raised and no report is
produced. -/
def openai_validate_and_create_report (job : OpenAIJob) (now : Frac)
    (download : DownloadOutcome) : Except String (JobReport × Nat) :=
  if job.status ∈ ProviderJobStatus.OPENAI then
    openai_create_report job now download
  else .error ("Unknown job status for OPENAI: " ++ job.status)

/-- `GoogleProvider._calculate_total_tokens`: on a succeeded job with a
truthy destination file, download it and sum the `usageMetadata` token
counts of every decodable line; any exception degrades to `None`. -/
def google_calculate_total_tokens (job : GoogleJob)
    (download : DownloadOutcome) : Option Int :=
  if job.state_name = "JOB_STATE_SUCCEEDED" ∧ optStrTruthy job.dest_file_name
  then
    match download with
    | .error _ => none
    | .ok contributions => some (contributions.foldl (· + ·) 0)
  else none

/-- `GoogleProvider._create_report_from_provider_job`: the classify step of
the Google adapter.  Returns the report and the number of cancellation
calls issued, or the `ValueError` text of the unexpected-status branch. -/
def google_create_report (job : GoogleJob) (now : Frac)
    (download : DownloadOutcome) : Except String (JobReport × Nat) :=
  let latency : Option Frac :=
    if job.state_name = "JOB_STATE_SUCCEEDED" ∧ job.end_time.isSome then
      some (pyRound2 ((job.end_time.getD (Frac.ofInt 0)).sub job.create_time))
    else none
  let details : ServiceReportedJobDetails :=
    { job_id := job.name
      model := job.model
      service_job_status := job.state_name
      created_at := isoUtc job.create_time
      ended_at := job.end_time.map isoUtc }
  let outcome : Except String (UserStatus × Nat) :=
    if job.state_name = "JOB_STATE_SUCCEEDED" then .ok (.SUCCEEDED, 0)
    else if job.state_name = "JOB_STATE_CANCELLED" then
      if job.end_time.isSome ∧
          oneDay.lt ((job.end_time.getD (Frac.ofInt 0)).sub job.create_time)
      then .ok (.CANCELLED_TIMED_OUT, 0)
      else .ok (.CANCELLED_ON_DEMAND, 0)
    else if job.state_name = "JOB_STATE_FAILED" then .ok (.FAILED, 0)
    else if job.state_name = "JOB_STATE_EXPIRED" then
      .ok (.CANCELLED_TIMED_OUT, 0)
    else if job.state_name ∈ ["JOB_STATE_PENDING", "JOB_STATE_RUNNING"] then
      if should_cancel_for_timeout job.create_time now then
        .ok (.CANCELLED_TIMED_OUT, 1)
      else .ok (.IN_PROGRESS, 0)
    else .error ("Unexpected job status: " ++ job.state_name)
  match outcome with
  | .error e => .error e
  | .ok (userStatus, cancels) =>
    let totalTokens : Option Int :=
      if userStatus = .SUCCEEDED then
        google_calculate_total_tokens job download
      else none
    .ok ({ provider := "google"
           job_id := job.name
           user_assigned_status := userStatus
           latency_seconds := latency
           total_tokens := totalTokens
           service_reported_details := details }, cancels)

/-- `BatchProvider._validate_and_create_report` instantiated at the Google
adapter, reading the `state.name` attribute. -/
def google_validate_and_create_report (job : GoogleJob) (now : Frac)
    (download : DownloadOutcome) : Except String (JobReport × Nat) :=
  if job.state_name ∈ ProviderJobStatus.GOOGLE then
    google_create_report job now download
  else .error ("Unknown job status for GOOGLE: " ++ job.state_name)

/-- `AnthropicProvider._calculate_total_tokens`: on an ended job with a
truthy results URL, download it and sum the input and output token counts of
every decodable line; any exception degrades to `None`. -/
def anthropic_calculate_total_tokens (job : AnthropicJob)
    (download : DownloadOutcome) : Option Int :=
  if job.processing_status = "ended" ∧ optStrTruthy job.results_url then
    match download with
    | .error _ => none
    | .ok contributions => some (contributions.foldl (· + ·) 0)
  else none

/-- The five-way completion breakdown total
`succeeded + errored + expired + canceled` used by the Anthropic adapter. -/
def AnthropicJob.rc_sum (job : AnthropicJob) : Int :=
  job.rc_succeeded + job.rc_errored + job.rc_expired + job.rc_canceled

/-- `AnthropicProvider._handle_ended_job`: classification of an ended batch;
errored wins over canceled, canceled over expired, and an all-succeeded
breakdown is a success.  The user-cancelled case carries no elapsed-time
check: it is always `CANCELLED_ON_DEMAND`. -/
def anthropic_handle_ended_job (job : AnthropicJob)
    (details : ServiceReportedJobDetails) (latency : Option Frac)
    (download : DownloadOutcome) : Except String (JobReport × Nat) :=
  let outcome : Except String UserStatus :=
    if 0 < job.rc_errored then .ok .FAILED
    else if 0 < job.rc_canceled then .ok .CANCELLED_ON_DEMAND
    else if 0 < job.rc_expired then .ok .CANCELLED_TIMED_OUT
    else if job.rc_succeeded = job.rc_sum then .ok .SUCCEEDED
    else .error ("Unexpected job status: " ++ job.processing_status)
  match outcome with
  | .error e => .error e
  | .ok userStatus =>
    let totalTokens : Option Int :=
      if userStatus = .SUCCEEDED then
        anthropic_calculate_total_tokens job download
      else none
    .ok ({ provider := "anthropic"
           job_id := job.id
           user_assigned_status := userStatus
           latency_seconds := latency
           total_tokens := totalTokens
           service_reported_details := details }, 0)

/-- `AnthropicProvider._handle_in_progress_job`: apply the timeout policy,
cancelling (one call) and classifying `CANCELLED_TIMED_OUT` on a timed-out
job, `IN_PROGRESS` otherwise. -/
def anthropic_handle_in_progress_job (job : AnthropicJob) (now : Frac)
    (details : ServiceReportedJobDetails) (latency : Option Frac) :
    Except String (JobReport × Nat) :=
  if should_cancel_for_timeout job.created_at now then
    .ok ({ provider := "anthropic"
           job_id := job.id
           user_assigned_status := .CANCELLED_TIMED_OUT
           latency_seconds := latency
           total_tokens := none
           service_reported_details := details }, 1)
  else
    .ok ({ provider := "anthropic"
           job_id := job.id
           user_assigned_status := .IN_PROGRESS
           latency_seconds := latency
           total_tokens := none
           service_reported_details := details }, 0)

/-- `AnthropicProvider._create_report_from_provider_job`: the classify step
of the Anthropic adapter. -/
def anthropic_create_report (job : AnthropicJob) (now : Frac)
    (download : DownloadOutcome) : Except String (JobReport × Nat) :=
  let latency : Option Frac :=
    if job.processing_status = "ended" ∧ job.rc_succeeded = job.rc_sum ∧
        job.ended_at.isSome then
      some (pyRound2 ((job.ended_at.getD (Frac.ofInt 0)).sub job.created_at))
    else none
  let details : ServiceReportedJobDetails :=
    { job_id := job.id
      model := "claude-3-haiku-20240307"
      service_job_status := job.processing_status
      created_at := isoUtc job.created_at
      ended_at := job.ended_at.map isoUtc
      total_requests := some job.rc_sum
      completed_requests := some job.rc_succeeded
      failed_requests := some job.rc_errored }
  if job.processing_status = "ended" then
    anthropic_handle_ended_job job details latency download
  else if job.processing_status = "in_progress" then
    anthropic_handle_in_progress_job job now details latency
  else .error ("Unexpected job status: " ++ job.processing_status)

/-- `BatchProvider._validate_and_create_report` instantiated at the
Anthropic adapter, reading the `processing_status` attribute. -/
def anthropic_validate_and_create_report (job : AnthropicJob) (now : Frac)
    (download : DownloadOutcome) : Except String (JobReport × Nat) :=
  if job.processing_status ∈ ProviderJobStatus.ANTHROPIC then
    anthropic_create_report job now download
  else .error ("Unknown job status for ANTHROPIC: " ++ job.processing_status)

/-- The observable outcome of one reconciliation pass: the report lines
appended to the output file in order, the number of provider calls made
(retrievals and cancellations), and the uncaught exception that ended the
pass early, when one was raised. -/
structure RunResult where
  written : List JobReport
  calls : Nat
  err : Option String
deriving DecidableEq, Repr

/-- `BatchProvider.generate_job_report_for_user` from src/providers/base.py:
fetch the provider job object (one provider call; `fetch` is the
`get_job_details_from_provider` collaborator, whose failure — transport
error or unknown job id — propagates uncaught), then validate and classify
it (counting its cancellation calls). -/
def generate_job_report_for_user {α : Type}
    (fetch : String → Except String α)
    (validate : α → Except String (JobReport × Nat))
    (job_id : String) : Except String (Option JobReport) × Nat :=
  match fetch job_id with
  | .error e => (.error e, 1)
  | .ok job =>
    match validate job with
    | .error e => (.error e, 1)
    | .ok (report, cancels) => (.ok (some report), 1 + cancels)

/-- `BatchProvider.check_jobs_from_file` from src/providers/base.py, over
the already line-split and JSON-parsed state file.  `gen` is
`generate_job_report_for_user` together with its provider collaborators;
it returns its result and the number of provider calls it made.  Each line
is deserialized; terminal records and records with a falsy `job_id` are
skipped without any call; otherwise the job is re-checked and the fresh
report appended.  There is no per-line exception handler: a deserialization
error or a `gen` error ends the pass, keeping what was already written. -/
def check_jobs_from_file
    (gen : String → Except String (Option JobReport) × Nat) :
    List JVal → RunResult
  | [] => ⟨[], 0, none⟩
  | line :: rest =>
    match JobReport.from_json line with
    | .error e => ⟨[], 0, some e⟩
    | .ok jobReport =>
      if jobReport.user_assigned_status.is_terminal then
        check_jobs_from_file gen rest
      else if jobReport.job_id = "" then
        check_jobs_from_file gen rest
      else
        match gen jobReport.job_id with
        | (.error e, k) => ⟨[], k, some e⟩
        | (.ok none, k) =>
          let r := check_jobs_from_file gen rest
          ⟨r.written, k + r.calls, r.err⟩
        | (.ok (some report), k) =>
          let r := check_jobs_from_file gen rest
          ⟨report :: r.written, k + r.calls, r.err⟩

/-- `BatchProvider.check_recent_jobs` from src/providers/base.py, over the
job objects returned by the provider listing: each is validated and
classified (`validate` counts its cancellation calls) and the report
appended; there is no per-job exception handler, so a classification error
ends the pass, keeping what was already written. -/
def check_recent_jobs {α : Type}
    (validate : α → Except String (JobReport × Nat)) :
    List α → RunResult
  | [] => ⟨[], 0, none⟩
  | job :: rest =>
    match validate job with
    | .error e => ⟨[], 0, some e⟩
    | .ok (report, cancels) =>
      let r := check_recent_jobs validate rest
      ⟨report :: r.written, cancels + r.calls, r.err⟩

/-- Whether an `Except` result is a success. -/
def exceptIsOk {ε α : Type} : Except ε α → Bool
  | .ok _ => true
  | .error _ => false

/-- The projection of a classification result observed by the timeout and
cancellation claims: the assigned canonical status and the number of
cancellation calls issued. -/
def statusAndCancels (p : JobReport × Nat) : UserStatus × Nat :=
  (p.1.user_assigned_status, p.2)

/-- A still-running OpenAI batch created at the epoch. -/
def lateOpenAIJob : OpenAIJob :=
  { id := "oai-late", status := "in_progress", created_at := ⟨0, 1⟩
    completed_at := none, model := "gpt-4o-mini"
    rc_total := 1, rc_completed := 0, rc_failed := 0, output_file_id := none }

/-- A still-pending Google batch created at the epoch. -/
def lateGoogleJob : GoogleJob :=
  { name := "ggl-late", state_name := "JOB_STATE_PENDING"
    create_time := ⟨0, 1⟩, end_time := none
    model := "models/gemini-2.5-flash-lite", dest_file_name := none }

/-- A still-running Anthropic batch created at the epoch. -/
def lateAnthropicJob : AnthropicJob :=
  { id := "ant-late", processing_status := "in_progress"
    created_at := ⟨0, 1⟩, ended_at := none
    rc_succeeded := 0, rc_errored := 0, rc_expired := 0, rc_canceled := 0
    results_url := none }

/-- Two days past the epoch, observed as the current time. -/
def twoDays : Frac := ⟨172800, 1⟩

/-- An OpenAI snapshot carrying a status outside every vocabulary. -/
def frobOpenAIJob : OpenAIJob := { lateOpenAIJob with status := "FROBNICATING" }

/-- A Google snapshot carrying a status outside every vocabulary. -/
def frobGoogleJob : GoogleJob :=
  { lateGoogleJob with state_name := "FROBNICATING" }

/-- An Anthropic snapshot carrying a status outside every vocabulary. -/
def frobAnthropicJob : AnthropicJob :=
  { lateAnthropicJob with processing_status := "FROBNICATING" }

/-- An Anthropic batch cancelled by the user after running two full days:
ended, one canceled request, elapsed duration well past the 24-hour
threshold. -/
def cancelledLateAnthropicJob : AnthropicJob :=
  { id := "ant-cx", processing_status := "ended"
    created_at := ⟨0, 1⟩, ended_at := some ⟨172800, 1⟩
    rc_succeeded := 0, rc_errored := 0, rc_expired := 0, rc_canceled := 1
    results_url := none }

/-- An OpenAI batch cancelled two full days after creation. -/
def cancelledLateOpenAIJob : OpenAIJob :=
  { lateOpenAIJob with id := "oai-cx", status := "cancelled"
                       completed_at := some ⟨172800, 1⟩ }

/-- A Google batch cancelled two full days after creation. -/
def cancelledLateGoogleJob : GoogleJob :=
  { lateGoogleJob with name := "ggl-cx", state_name := "JOB_STATE_CANCELLED"
                       end_time := some ⟨172800, 1⟩ }

/-- Service details of a persisted sample record. -/
def sampleDetails (id status : String) : ServiceReportedJobDetails :=
  { job_id := id, model := "models/gemini-2.5-flash-lite"
    service_job_status := status, created_at := "2025-10-12T06:00:00+00:00" }

/-- A persisted record that already reached `SUCCEEDED`. -/
def terminalReport1 : JobReport :=
  { provider := "google", job_id := "job-123"
    user_assigned_status := .SUCCEEDED, latency_seconds := some ⟨12345, 100⟩
    total_tokens := some 60
    service_reported_details := sampleDetails "job-123" "JOB_STATE_SUCCEEDED" }

/-- A persisted record that already reached `CANCELLED_ON_DEMAND`. -/
def terminalReport2 : JobReport :=
  { provider := "google", job_id := "job-abc"
    user_assigned_status := .CANCELLED_ON_DEMAND, latency_seconds := none
    service_reported_details := sampleDetails "job-abc" "JOB_STATE_CANCELLED" }

/-- A persisted record still in progress, for a given job id. -/
def inProgressReport (id : String) : JobReport :=
  { provider := "google", job_id := id
    user_assigned_status := .IN_PROGRESS, latency_seconds := none
    service_reported_details := sampleDetails id "JOB_STATE_PENDING" }

/-- The fresh report a healthy re-check of a job would produce. -/
def freshReport (id : String) : JobReport :=
  { provider := "google", job_id := id
    user_assigned_status := .SUCCEEDED, latency_seconds := some ⟨3600, 1⟩
    service_reported_details := sampleDetails id "JOB_STATE_SUCCEEDED" }

/-- A provider interaction that always answers without a report. -/
def genNever : String → Except String (Option JobReport) × Nat :=
  fun _ => (.ok none, 1)

/-- A provider interaction that raises on job-1 and reports on any other
job, one provider call each. -/
def genBoomFirst : String → Except String (Option JobReport) × Nat :=
  fun id => if id = "job-1" then (.error "boom", 1)
            else (.ok (some (freshReport id)), 1)

/-- A provider interaction that reports on every job, one call each. -/
def genFresh : String → Except String (Option JobReport) × Nat :=
  fun id => (.ok (some (freshReport id)), 1)

/-- A retrieval collaborator for which every job id has vanished remotely. -/
def fetchVanished : String → Except String GoogleJob :=
  fun _ => .error "UnknownJobId"

/-- The Google validate-and-classify step at a fixed observation time and
download outcome, as passed to `generate_job_report_for_user`. -/
def googleValidateAt (now : Frac) (dl : DownloadOutcome) :
    GoogleJob → Except String (JobReport × Nat) :=
  fun job => google_validate_and_create_report job now dl

/-- A persisted line whose object lacks the `job_id` key entirely. -/
def missingIdLine : JVal :=
  .obj [("provider", .s "google"),
        ("user_assigned_status", .s "IN_PROGRESS"),
        ("latency_seconds", .null),
        ("service_reported_details",
          .obj (sampleDetails "job-9" "JOB_STATE_PENDING").asdict)]

/-- A report whose recorded latency carries three decimal places. -/
def oddLatencyReport : JobReport :=
  { provider := "openai", job_id := "j8"
    user_assigned_status := .SUCCEEDED, latency_seconds := some ⟨1111, 1000⟩
    service_reported_details := sampleDetails "j8" "completed" }

/-- A completed OpenAI batch that ran 123.45 seconds. -/
def completedOpenAIJob : OpenAIJob :=
  { id := "oai-ok", status := "completed", created_at := ⟨0, 1⟩
    completed_at := some ⟨12345, 100⟩, model := "gpt-4o-mini"
    rc_total := 1, rc_completed := 1, rc_failed := 0, output_file_id := none }

/-- A completed OpenAI batch with a results file, for token accounting. -/
def tokenOpenAIJob : OpenAIJob :=
  { completedOpenAIJob with id := "oai-tok", output_file_id := some "file-1" }

/-- An ended, all-succeeded Anthropic batch with a results URL. -/
def tokenAnthropicJob : AnthropicJob :=
  { id := "ant-tok", processing_status := "ended"
    created_at := ⟨0, 1⟩, ended_at := some ⟨3600, 1⟩
    rc_succeeded := 2, rc_errored := 0, rc_expired := 0, rc_canceled := 0
    results_url := some "res-url" }

/-- The report the Google adapter produces for `cancelledLateGoogleJob`. -/
def cancelledLateGoogleReport : JobReport :=
  { provider := "google", job_id := "ggl-cx"
    user_assigned_status := .CANCELLED_TIMED_OUT
    latency_seconds := none, total_tokens := none
    service_reported_details :=
      { job_id := "ggl-cx", model := "models/gemini-2.5-flash-lite"
        service_job_status := "JOB_STATE_CANCELLED", created_at := "0/1Z"
        ended_at := some "172800/1Z" } }

/-- The report the OpenAI adapter produces for `completedOpenAIJob`. -/
def completedOpenAIReport : JobReport :=
  { provider := "openai", job_id := "oai-ok"
    user_assigned_status := .SUCCEEDED
    latency_seconds := some ⟨12345, 100⟩, total_tokens := none
    service_reported_details :=
      { job_id := "oai-ok", model := "gpt-4o-mini"
        service_job_status := "completed", created_at := "0/1Z"
        ended_at := some "12345/100Z", total_requests := some 1
        completed_requests := some 1, failed_requests := some 0 } }

/-- The report the OpenAI adapter produces for `tokenOpenAIJob` when the
results download yields usage contributions 15, 25 and 35. -/
def tokenOpenAIReport : JobReport :=
  { provider := "openai", job_id := "oai-tok"
    user_assigned_status := .SUCCEEDED
    latency_seconds := some ⟨12345, 100⟩, total_tokens := some 75
    service_reported_details :=
      { job_id := "oai-tok", model := "gpt-4o-mini"
        service_job_status := "completed", created_at := "0/1Z"
        ended_at := some "12345/100Z", total_requests := some 1
        completed_requests := some 1, failed_requests := some 0 } }

/-- The report the Anthropic adapter produces for `tokenAnthropicJob` when
the results download yields usage contributions 40 and 50. -/
def tokenAnthropicReport : JobReport :=
  { provider := "anthropic", job_id := "ant-tok"
    user_assigned_status := .SUCCEEDED
    latency_seconds := some ⟨360000, 100⟩, total_tokens := some 90
    service_reported_details :=
      { job_id := "ant-tok", model := "claude-3-haiku-20240307"
        service_job_status := "ended", created_at := "0/1Z"
        ended_at := some "3600/1Z", total_requests := some 2
        completed_requests := some 2, failed_requests := some 0 } }

/-- The report the Anthropic adapter produces for `tokenAnthropicJob` when
the results download raises: identical but with `total_tokens` degraded to
`None`. -/
def tokenAnthropicReportNoDl : JobReport :=
  { tokenAnthropicReport with total_tokens := none }

theorem details_from_obj_asdict (d : ServiceReportedJobDetails) :
    ServiceReportedJobDetails.from_obj d.asdict = .ok d := by
  obtain ⟨a, b, c, e, f, g, h, i⟩ := d
  cases f <;> cases g <;> cases h <;> cases i <;> rfl

theorem from_json_to_json (r : JobReport) :
    JobReport.from_json r.to_json = .ok r := by
  obtain ⟨p, j, ua, lat, tok, det⟩ := r
  obtain ⟨a, b, c, e, f, g, h, i⟩ := det
  cases ua <;> cases lat <;> cases tok <;> cases f <;> cases g <;> cases h
    <;> cases i <;> rfl

theorem timeout_iff (c now : Frac) :
    oneDay.lt (now.sub c) ↔ should_cancel_for_timeout c now = true := by
  unfold should_cancel_for_timeout oneDay Frac.ofInt Frac.lt Frac.sub
  simp only [decide_eq_true_eq]
  push_cast
  constructor <;> intro h <;> ring_nf at h ⊢ <;> linarith

theorem pyRound2_den100 (n : Int) : pyRound2 ⟨n, 100⟩ = ⟨n, 100⟩ := by
  unfold pyRound2
  have h1 : Int.fdiv (n * 100) ((100 : Nat) : Int) = n := by
    norm_num [Int.mul_fdiv_cancel]
  simp [h1]

theorem pyRound2_idem (x : Frac) : pyRound2 (pyRound2 x) = pyRound2 x := by
  have h : pyRound2 x = ⟨(pyRound2 x).num, 100⟩ := rfl
  rw [h, pyRound2_den100]

theorem openai_report_latency (job : OpenAIJob) (now : Frac)
    (dl : DownloadOutcome) (rep : JobReport) (c : Nat)
    (h : openai_validate_and_create_report job now dl = .ok (rep, c)) :
    rep.latency_seconds =
      (if job.status = "completed" ∧ optFracTruthy job.completed_at then
        some (pyRound2
          ((job.completed_at.getD (Frac.ofInt 0)).sub job.created_at))
      else none) := by
  unfold openai_validate_and_create_report openai_create_report at h
  repeat' split at h
  all_goals simp only [Except.ok.injEq, Prod.mk.injEq, reduceCtorEq] at h
  all_goals try obtain ⟨hr, -⟩ := h
  all_goals try subst hr
  all_goals simp_all

theorem google_report_latency (job : GoogleJob) (now : Frac)
    (dl : DownloadOutcome) (rep : JobReport) (c : Nat)
    (h : google_validate_and_create_report job now dl = .ok (rep, c)) :
    rep.latency_seconds =
      (if job.state_name = "JOB_STATE_SUCCEEDED" ∧ job.end_time.isSome then
        some (pyRound2 ((job.end_time.getD (Frac.ofInt 0)).sub job.create_time))
      else none) := by
  unfold google_validate_and_create_report google_create_report at h
  repeat' split at h
  all_goals simp only [Except.ok.injEq, Prod.mk.injEq, reduceCtorEq] at h
  all_goals try obtain ⟨hr, -⟩ := h
  all_goals try subst hr
  all_goals simp_all

theorem openai_report_tokens (job : OpenAIJob) (now : Frac)
    (dl : DownloadOutcome) (rep : JobReport) (c : Nat)
    (h : openai_validate_and_create_report job now dl = .ok (rep, c)) :
    rep.total_tokens =
      (if rep.user_assigned_status = .SUCCEEDED then
        openai_calculate_total_tokens job dl
      else none) ∧
      (rep.user_assigned_status = .SUCCEEDED → job.status = "completed") := by
  unfold openai_validate_and_create_report openai_create_report at h
  repeat' split at h
  all_goals simp only [Except.ok.injEq, Prod.mk.injEq, reduceCtorEq] at h
  all_goals try obtain ⟨hr, -⟩ := h
  all_goals try subst hr
  all_goals simp_all

theorem anthropic_report_tokens (job : AnthropicJob) (now : Frac)
    (dl : DownloadOutcome) (rep : JobReport) (c : Nat)
    (h : anthropic_validate_and_create_report job now dl = .ok (rep, c)) :
    rep.total_tokens =
      (if rep.user_assigned_status = .SUCCEEDED then
        anthropic_calculate_total_tokens job dl
      else none) ∧
      (rep.user_assigned_status = .SUCCEEDED →
        job.processing_status = "ended") := by
  unfold anthropic_validate_and_create_report anthropic_create_report
    anthropic_handle_ended_job anthropic_handle_in_progress_job at h
  repeat' split at h
  all_goals simp only [Except.ok.injEq, Prod.mk.injEq, reduceCtorEq] at h
  all_goals try obtain ⟨hr, -⟩ := h
  all_goals try subst hr
  all_goals simp_all

set_option maxHeartbeats 1000000 in
theorem openai_okness_independent (job : OpenAIJob) (now : Frac)
    (dl dl' : DownloadOutcome) :
    exceptIsOk (openai_validate_and_create_report job now dl) =
      exceptIsOk (openai_validate_and_create_report job now dl') := by
  unfold openai_validate_and_create_report openai_create_report exceptIsOk
  split_ifs <;> rfl

set_option maxHeartbeats 1000000 in
theorem anthropic_okness_independent (job : AnthropicJob) (now : Frac)
    (dl dl' : DownloadOutcome) :
    exceptIsOk (anthropic_validate_and_create_report job now dl) =
      exceptIsOk (anthropic_validate_and_create_report job now dl') := by
  unfold anthropic_validate_and_create_report anthropic_create_report
    anthropic_handle_ended_job anthropic_handle_in_progress_job exceptIsOk
  split_ifs <;> rfl

/-- C1: serializing any valid JobReport — including reports with null
latency_seconds and null total_tokens — with `JobReport.to_json` and
deserializing the result with `JobReport.from_json` yields a value equal to
the original, including the nested `ServiceReportedJobDetails` and the
enum-valued `user_assigned_status`. -/
theorem C1_report_roundtrip (r : JobReport) :
    JobReport.from_json r.to_json = .ok r :=
  from_json_to_json r

/-- C2: for each of the three adapters, a raw snapshot whose provider
status is a non-terminal member of its vocabulary and whose creation time
lies more than 24 hours before now is classified `CANCELLED_TIMED_OUT`
(never `IN_PROGRESS`) with exactly one cancellation call issued. -/
theorem C2_timeout_forces_cancellation :
    (∀ (job : OpenAIJob) (now : Frac) (dl : DownloadOutcome),
      job.status ∈ ["validating", "in_progress", "finalizing", "cancelling"] →
      oneDay.lt (now.sub job.created_at) →
      (openai_validate_and_create_report job now dl).map statusAndCancels =
        .ok (.CANCELLED_TIMED_OUT, 1)) ∧
    (∀ (job : GoogleJob) (now : Frac) (dl : DownloadOutcome),
      job.state_name ∈ ["JOB_STATE_PENDING", "JOB_STATE_RUNNING"] →
      oneDay.lt (now.sub job.create_time) →
      (google_validate_and_create_report job now dl).map statusAndCancels =
        .ok (.CANCELLED_TIMED_OUT, 1)) ∧
    (∀ (job : AnthropicJob) (now : Frac) (dl : DownloadOutcome),
      job.processing_status = "in_progress" →
      oneDay.lt (now.sub job.created_at) →
      (anthropic_validate_and_create_report job now dl).map statusAndCancels =
        .ok (.CANCELLED_TIMED_OUT, 1)) := by
  refine ⟨?_, ?_, ?_⟩
  · intro job now dl hmem hold
    have ht : should_cancel_for_timeout job.created_at now = true :=
      (timeout_iff _ _).1 hold
    simp only [List.mem_cons, List.not_mem_nil, or_false] at hmem
    rcases hmem with h | h | h | h <;>
      simp [openai_validate_and_create_report, openai_create_report,
        ProviderJobStatus.OPENAI, Except.map, statusAndCancels, h, ht]
  · intro job now dl hmem hold
    have ht : should_cancel_for_timeout job.create_time now = true :=
      (timeout_iff _ _).1 hold
    simp only [List.mem_cons, List.not_mem_nil, or_false] at hmem
    rcases hmem with h | h <;>
      simp [google_validate_and_create_report, google_create_report,
        ProviderJobStatus.GOOGLE, Except.map, statusAndCancels, h, ht]
  · intro job now dl h hold
    have ht : should_cancel_for_timeout job.created_at now = true :=
      (timeout_iff _ _).1 hold
    simp [anthropic_validate_and_create_report, anthropic_create_report,
      anthropic_handle_in_progress_job, ProviderJobStatus.ANTHROPIC,
      Except.map, statusAndCancels, h, ht]

/-- Witness for C2: one two-day-old still-running job per provider, each
classified timed-out with exactly one cancellation call. -/
theorem C2_timeout_forces_cancellation_witness :
    (lateOpenAIJob.status ∈
        ["validating", "in_progress", "finalizing", "cancelling"] ∧
      oneDay.lt (twoDays.sub lateOpenAIJob.created_at) ∧
      (openai_validate_and_create_report lateOpenAIJob twoDays
          (.ok [])).map statusAndCancels =
        .ok (.CANCELLED_TIMED_OUT, 1)) ∧
    (lateGoogleJob.state_name ∈ ["JOB_STATE_PENDING", "JOB_STATE_RUNNING"] ∧
      oneDay.lt (twoDays.sub lateGoogleJob.create_time) ∧
      (google_validate_and_create_report lateGoogleJob twoDays
          (.ok [])).map statusAndCancels =
        .ok (.CANCELLED_TIMED_OUT, 1)) ∧
    (lateAnthropicJob.processing_status = "in_progress" ∧
      oneDay.lt (twoDays.sub lateAnthropicJob.created_at) ∧
      (anthropic_validate_and_create_report lateAnthropicJob twoDays
          (.ok [])).map statusAndCancels =
        .ok (.CANCELLED_TIMED_OUT, 1)) :=
  ⟨⟨by decide, by decide,
    C2_timeout_forces_cancellation.1 lateOpenAIJob twoDays (.ok [])
      (by decide) (by decide)⟩,
   ⟨by decide, by decide,
    C2_timeout_forces_cancellation.2.1 lateGoogleJob twoDays (.ok [])
      (by decide) (by decide)⟩,
   ⟨by decide, by decide,
    C2_timeout_forces_cancellation.2.2 lateAnthropicJob twoDays (.ok [])
      (by decide) (by decide)⟩⟩

/-- C3: for each adapter, a raw snapshot whose provider status is not a
member of that provider's known vocabulary fails validation with the
`Unknown job status` hard error; it is never coerced to `UNKNOWN` and no
JobReport is produced. -/
theorem C3_unknown_status_is_hard_error :
    (∀ (job : OpenAIJob) (now : Frac) (dl : DownloadOutcome),
      job.status ∉ ProviderJobStatus.OPENAI →
      openai_validate_and_create_report job now dl =
        .error ("Unknown job status for OPENAI: " ++ job.status)) ∧
    (∀ (job : GoogleJob) (now : Frac) (dl : DownloadOutcome),
      job.state_name ∉ ProviderJobStatus.GOOGLE →
      google_validate_and_create_report job now dl =
        .error ("Unknown job status for GOOGLE: " ++ job.state_name)) ∧
    (∀ (job : AnthropicJob) (now : Frac) (dl : DownloadOutcome),
      job.processing_status ∉ ProviderJobStatus.ANTHROPIC →
      anthropic_validate_and_create_report job now dl =
        .error ("Unknown job status for ANTHROPIC: " ++
          job.processing_status)) := by
  refine ⟨?_, ?_, ?_⟩ <;> intro job now dl hnot
  · unfold openai_validate_and_create_report
    rw [if_neg hnot]
  · unfold google_validate_and_create_report
    rw [if_neg hnot]
  · unfold anthropic_validate_and_create_report
    rw [if_neg hnot]

/-- Witness for C3: the status FROBNICATING is outside every vocabulary and
each adapter rejects it with the hard error. -/
theorem C3_unknown_status_is_hard_error_witness :
    (frobOpenAIJob.status ∉ ProviderJobStatus.OPENAI ∧
      openai_validate_and_create_report frobOpenAIJob twoDays (.ok []) =
        .error "Unknown job status for OPENAI: FROBNICATING") ∧
    (frobGoogleJob.state_name ∉ ProviderJobStatus.GOOGLE ∧
      google_validate_and_create_report frobGoogleJob twoDays (.ok []) =
        .error "Unknown job status for GOOGLE: FROBNICATING") ∧
    (frobAnthropicJob.processing_status ∉ ProviderJobStatus.ANTHROPIC ∧
      anthropic_validate_and_create_report frobAnthropicJob twoDays
          (.ok []) =
        .error "Unknown job status for ANTHROPIC: FROBNICATING") :=
  ⟨⟨by decide,
    C3_unknown_status_is_hard_error.1 frobOpenAIJob twoDays (.ok [])
      (by decide)⟩,
   ⟨by decide,
    C3_unknown_status_is_hard_error.2.1 frobGoogleJob twoDays (.ok [])
      (by decide)⟩,
   ⟨by decide,
    C3_unknown_status_is_hard_error.2.2 frobAnthropicJob twoDays (.ok [])
      (by decide)⟩⟩

/-- Counterexample to C4: the Anthropic adapter classifies a user-cancelled
batch `CANCELLED_ON_DEMAND` even when the elapsed duration from creation to
end (two full days here) exceeds the 24-hour threshold, where the claim
demands `CANCELLED_TIMED_OUT`. -/
theorem C4_counterexample :
    (anthropic_validate_and_create_report cancelledLateAnthropicJob twoDays
        (.ok [])).map statusAndCancels =
      .ok (.CANCELLED_ON_DEMAND, 0) ∧
    oneDay.lt ((cancelledLateAnthropicJob.ended_at.getD (Frac.ofInt 0)).sub
      cancelledLateAnthropicJob.created_at) ∧
    UserStatus.CANCELLED_ON_DEMAND ≠ UserStatus.CANCELLED_TIMED_OUT :=
  ⟨rfl, by decide, by decide⟩

/-- C4 amended: the OpenAI and Google adapters classify a user-cancelled
snapshot `CANCELLED_TIMED_OUT` exactly when an end timestamp is present and
the elapsed duration from creation to end exceeds 24 hours, and
`CANCELLED_ON_DEMAND` otherwise; the Anthropic adapter applies no such
override and always classifies a cancelled batch (no errored requests, at
least one canceled request) `CANCELLED_ON_DEMAND`. -/
theorem C4_amended_cancellation_attribution :
    (∀ (job : OpenAIJob) (now : Frac) (dl : DownloadOutcome),
      job.status = "cancelled" →
      (openai_validate_and_create_report job now dl).map statusAndCancels =
        .ok ((if optFracTruthy job.completed_at ∧
                oneDay.lt
                  ((job.completed_at.getD (Frac.ofInt 0)).sub job.created_at)
              then .CANCELLED_TIMED_OUT else .CANCELLED_ON_DEMAND), 0)) ∧
    (∀ (job : GoogleJob) (now : Frac) (dl : DownloadOutcome),
      job.state_name = "JOB_STATE_CANCELLED" →
      (google_validate_and_create_report job now dl).map statusAndCancels =
        .ok ((if job.end_time.isSome ∧
                oneDay.lt
                  ((job.end_time.getD (Frac.ofInt 0)).sub job.create_time)
              then .CANCELLED_TIMED_OUT else .CANCELLED_ON_DEMAND), 0)) ∧
    (∀ (job : AnthropicJob) (now : Frac) (dl : DownloadOutcome),
      job.processing_status = "ended" → job.rc_errored ≤ 0 →
      0 < job.rc_canceled →
      (anthropic_validate_and_create_report job now dl).map statusAndCancels =
        .ok (.CANCELLED_ON_DEMAND, 0)) := by
  refine ⟨?_, ?_, ?_⟩
  · intro job now dl h
    simp only [openai_validate_and_create_report, openai_create_report,
      ProviderJobStatus.OPENAI, h]
    split_ifs <;> simp_all [Except.map, statusAndCancels]
  · intro job now dl h
    simp only [google_validate_and_create_report, google_create_report,
      ProviderJobStatus.GOOGLE, h]
    split_ifs <;> simp_all [Except.map, statusAndCancels]
  · intro job now dl h he hc
    have he' : ¬(0 < job.rc_errored) := by omega
    simp [anthropic_validate_and_create_report, anthropic_create_report,
      anthropic_handle_ended_job, ProviderJobStatus.ANTHROPIC,
      Except.map, statusAndCancels, h, he', hc]

/-- Witness for C4 amended: a two-day cancelled OpenAI batch is attributed
to the timeout policy, a two-day cancelled Google batch likewise, and a
two-day cancelled Anthropic batch stays `CANCELLED_ON_DEMAND`. -/
theorem C4_amended_cancellation_attribution_witness :
    (cancelledLateOpenAIJob.status = "cancelled" ∧
      (openai_validate_and_create_report cancelledLateOpenAIJob twoDays
          (.ok [])).map statusAndCancels =
        .ok (.CANCELLED_TIMED_OUT, 0)) ∧
    (cancelledLateGoogleJob.state_name = "JOB_STATE_CANCELLED" ∧
      (google_validate_and_create_report cancelledLateGoogleJob twoDays
          (.ok [])).map statusAndCancels =
        .ok (.CANCELLED_TIMED_OUT, 0)) ∧
    (cancelledLateAnthropicJob.processing_status = "ended" ∧
      cancelledLateAnthropicJob.rc_errored ≤ 0 ∧
      0 < cancelledLateAnthropicJob.rc_canceled ∧
      (anthropic_validate_and_create_report cancelledLateAnthropicJob twoDays
          (.ok [])).map statusAndCancels =
        .ok (.CANCELLED_ON_DEMAND, 0)) :=
  ⟨⟨rfl,
    C4_amended_cancellation_attribution.1 cancelledLateOpenAIJob twoDays
      (.ok []) rfl⟩,
   ⟨rfl,
    C4_amended_cancellation_attribution.2.1 cancelledLateGoogleJob twoDays
      (.ok []) rfl⟩,
   ⟨rfl, by decide, by decide,
    C4_amended_cancellation_attribution.2.2 cancelledLateAnthropicJob twoDays
      (.ok []) rfl (by decide) (by decide)⟩⟩

/-- C5: over a persisted state file all of whose records carry a terminal
user-assigned status, `check_jobs_from_file` makes zero provider calls,
appends zero output lines, and raises nothing — for any provider
behavior. -/
theorem C5_terminal_file_is_idempotent
    (gen : String → Except String (Option JobReport) × Nat)
    (lines : List JVal)
    (h : ∀ l ∈ lines, ∃ r, JobReport.from_json l = .ok r ∧
      r.user_assigned_status.is_terminal = true) :
    check_jobs_from_file gen lines = ⟨[], 0, none⟩ := by
  induction lines with
  | nil => rfl
  | cons l rest ih =>
    obtain ⟨r, hr, ht⟩ := h l (by simp)
    simp only [check_jobs_from_file, hr, ht, if_true]
    exact ih (fun l' hl' => h l' (by simp [hl']))

/-- Witness for C5: a two-line all-terminal state file produces no calls
and no output even against a provider that would answer every id. -/
theorem C5_terminal_file_is_idempotent_witness :
    (∀ l ∈ [terminalReport1.to_json, terminalReport2.to_json],
      ∃ r, JobReport.from_json l = .ok r ∧
        r.user_assigned_status.is_terminal = true) ∧
    check_jobs_from_file genFresh
      [terminalReport1.to_json, terminalReport2.to_json] = ⟨[], 0, none⟩ := by
  have h : ∀ l ∈ [terminalReport1.to_json, terminalReport2.to_json],
      ∃ r, JobReport.from_json l = .ok r ∧
        r.user_assigned_status.is_terminal = true := by
    intro l hl
    rcases List.mem_cons.mp hl with rfl | hl'
    · exact ⟨terminalReport1, from_json_to_json _, rfl⟩
    rcases List.mem_cons.mp hl' with rfl | hl''
    · exact ⟨terminalReport2, from_json_to_json _, rfl⟩
    · exact absurd hl'' (List.not_mem_nil _)
  exact ⟨h, C5_terminal_file_is_idempotent genFresh _ h⟩

/-- Counterexample to C6: with the first record's re-check raising, the
pass aborts — the second record, which the same provider interaction would
have processed successfully, yields no provider call and no output line,
where the claim demands that the loop continue and its report be written. -/
theorem C6_counterexample :
    check_jobs_from_file genBoomFirst
      [(inProgressReport "job-1").to_json,
       (inProgressReport "job-2").to_json] = ⟨[], 1, some "boom"⟩ ∧
    genBoomFirst "job-2" = (.ok (some (freshReport "job-2")), 1) :=
  ⟨rfl, rfl⟩

/-- C6 amended: there is no per-job exception handler in either
reconciliation loop: a fatal error while processing one job aborts the
pass, the jobs after it are not processed, and only the reports written
before the failure remain. -/
theorem C6_amended_error_aborts_pass :
    (∀ (gen : String → Except String (Option JobReport) × Nat)
       (l₁ l₂ : JVal) (rest : List JVal) (r₁ rep₁ r₂ : JobReport)
       (k₁ k₂ : Nat) (e : String),
      JobReport.from_json l₁ = .ok r₁ →
      r₁.user_assigned_status.is_terminal = false → ¬r₁.job_id = "" →
      gen r₁.job_id = (.ok (some rep₁), k₁) →
      JobReport.from_json l₂ = .ok r₂ →
      r₂.user_assigned_status.is_terminal = false → ¬r₂.job_id = "" →
      gen r₂.job_id = (.error e, k₂) →
      check_jobs_from_file gen (l₁ :: l₂ :: rest) =
        ⟨[rep₁], k₁ + k₂, some e⟩) ∧
    (∀ {α : Type} (validate : α → Except String (JobReport × Nat))
       (job : α) (rest : List α) (e : String),
      validate job = .error e →
      check_recent_jobs validate (job :: rest) = ⟨[], 0, some e⟩) := by
  constructor
  · intro gen l₁ l₂ rest r₁ rep₁ r₂ k₁ k₂ e h₁ ht₁ hid₁ hg₁ h₂ ht₂ hid₂ hg₂
    simp [check_jobs_from_file, h₁, ht₁, hid₁, hg₁, h₂, ht₂, hid₂, hg₂]
  · intro α validate job rest e hv
    simp [check_recent_jobs, hv]

/-- Witness for C6 amended: a healthy first record followed by a failing
one keeps the first report, stops at the error, and an erroring classify
aborts a fresh scan at once. -/
theorem C6_amended_error_aborts_pass_witness :
    (JobReport.from_json (inProgressReport "job-2").to_json =
        .ok (inProgressReport "job-2") ∧
      (inProgressReport "job-2").user_assigned_status.is_terminal = false ∧
      genBoomFirst "job-2" = (.ok (some (freshReport "job-2")), 1) ∧
      genBoomFirst "job-1" = (.error "boom", 1) ∧
      check_jobs_from_file genBoomFirst
        [(inProgressReport "job-2").to_json,
         (inProgressReport "job-1").to_json] =
        ⟨[freshReport "job-2"], 1 + 1, some "boom"⟩) ∧
    (googleValidateAt twoDays (.ok []) frobGoogleJob =
        .error "Unknown job status for GOOGLE: FROBNICATING" ∧
      check_recent_jobs (googleValidateAt twoDays (.ok [])) [frobGoogleJob] =
        ⟨[], 0, some "Unknown job status for GOOGLE: FROBNICATING"⟩) :=
  ⟨⟨rfl, rfl, rfl, rfl,
    C6_amended_error_aborts_pass.1 genBoomFirst
      (inProgressReport "job-2").to_json (inProgressReport "job-1").to_json
      [] (inProgressReport "job-2") (freshReport "job-2")
      (inProgressReport "job-1") 1 1 "boom"
      rfl rfl (by decide) rfl rfl rfl (by decide) rfl⟩,
   ⟨rfl,
    C6_amended_error_aborts_pass.2 (googleValidateAt twoDays (.ok []))
      frobGoogleJob [] "Unknown job status for GOOGLE: FROBNICATING" rfl⟩⟩

/-- Counterexample to C7: when retrieval of a job's remote state fails with
UnknownJobId, the reconciliation step propagates the error — it does not
emit a JobReport with `UNKNOWN` status. -/
theorem C7_counterexample :
    generate_job_report_for_user fetchVanished
      (googleValidateAt twoDays (.ok [])) "job-gone" =
      (.error "UnknownJobId", 1) :=
  rfl

set_option maxHeartbeats 2000000 in
/-- C7 amended: a retrieval failure (including a vanished job id)
propagates uncaught out of `generate_job_report_for_user` after the single
fetch call, and no classification path of any adapter ever assigns the
`UNKNOWN` status. -/
theorem C7_amended_unknown_id_propagates :
    (∀ {α : Type} (fetch : String → Except String α)
       (validate : α → Except String (JobReport × Nat)) (id e : String),
      fetch id = .error e →
      generate_job_report_for_user fetch validate id = (.error e, 1)) ∧
    (∀ (job : GoogleJob) (now : Frac) (dl : DownloadOutcome)
       (rep : JobReport) (c : Nat),
      google_validate_and_create_report job now dl = .ok (rep, c) →
      rep.user_assigned_status ≠ .UNKNOWN) ∧
    (∀ (job : OpenAIJob) (now : Frac) (dl : DownloadOutcome)
       (rep : JobReport) (c : Nat),
      openai_validate_and_create_report job now dl = .ok (rep, c) →
      rep.user_assigned_status ≠ .UNKNOWN) ∧
    (∀ (job : AnthropicJob) (now : Frac) (dl : DownloadOutcome)
       (rep : JobReport) (c : Nat),
      anthropic_validate_and_create_report job now dl = .ok (rep, c) →
      rep.user_assigned_status ≠ .UNKNOWN) := by
  refine ⟨?_, ?_, ?_, ?_⟩
  · intro α fetch validate id e hf
    simp [generate_job_report_for_user, hf]
  · intro job now dl rep c h
    unfold google_validate_and_create_report google_create_report at h
    repeat' split at h
    all_goals simp only [Except.ok.injEq, Prod.mk.injEq, reduceCtorEq] at h
    all_goals try obtain ⟨hr, -⟩ := h
    all_goals try subst hr
    all_goals simp_all
  · intro job now dl rep c h
    unfold openai_validate_and_create_report openai_create_report at h
    repeat' split at h
    all_goals simp only [Except.ok.injEq, Prod.mk.injEq, reduceCtorEq] at h
    all_goals try obtain ⟨hr, -⟩ := h
    all_goals try subst hr
    all_goals simp_all
  · intro job now dl rep c h
    unfold anthropic_validate_and_create_report anthropic_create_report
      anthropic_handle_ended_job anthropic_handle_in_progress_job at h
    repeat' split at h
    all_goals simp only [Except.ok.injEq, Prod.mk.injEq, reduceCtorEq] at h
    all_goals try obtain ⟨hr, -⟩ := h
    all_goals try subst hr
    all_goals simp_all

/-- Witness for C7 amended: the vanished-id fetch propagates its error, and
concrete classifications of each adapter carry a status other than
`UNKNOWN`. -/
theorem C7_amended_unknown_id_propagates_witness :
    (fetchVanished "job-gone" = .error "UnknownJobId" ∧
      generate_job_report_for_user fetchVanished
        (googleValidateAt twoDays (.ok [])) "job-gone" =
        (.error "UnknownJobId", 1)) ∧
    (google_validate_and_create_report cancelledLateGoogleJob twoDays
        (.ok []) = .ok (cancelledLateGoogleReport, 0) ∧
      cancelledLateGoogleReport.user_assigned_status ≠ .UNKNOWN) ∧
    (openai_validate_and_create_report completedOpenAIJob twoDays (.ok []) =
        .ok (completedOpenAIReport, 0) ∧
      completedOpenAIReport.user_assigned_status ≠ .UNKNOWN) ∧
    (anthropic_validate_and_create_report tokenAnthropicJob twoDays
        (.ok [40, 50]) = .ok (tokenAnthropicReport, 0) ∧
      tokenAnthropicReport.user_assigned_status ≠ .UNKNOWN) :=
  ⟨⟨rfl,
    C7_amended_unknown_id_propagates.1 fetchVanished
      (googleValidateAt twoDays (.ok [])) "job-gone" "UnknownJobId" rfl⟩,
   ⟨rfl,
    C7_amended_unknown_id_propagates.2.1 cancelledLateGoogleJob twoDays
      (.ok []) cancelledLateGoogleReport 0 rfl⟩,
   ⟨rfl,
    C7_amended_unknown_id_propagates.2.2.1 completedOpenAIJob twoDays
      (.ok []) completedOpenAIReport 0 rfl⟩,
   ⟨rfl,
    C7_amended_unknown_id_propagates.2.2.2 tokenAnthropicJob twoDays
      (.ok [40, 50]) tokenAnthropicReport 0 rfl⟩⟩

/-- Counterexample to C8: `to_json` performs no rounding — a report whose
latency carries three decimal places (1.111) is serialized unchanged, while
two-decimal rounding would have altered it (to a strictly smaller value). -/
theorem C8_counterexample :
    (JobReport.to_json oddLatencyReport).getField "latency_seconds" =
      some (.f ⟨1111, 1000⟩) ∧
    pyRound2 ⟨1111, 1000⟩ ≠ ⟨1111, 1000⟩ ∧
    (pyRound2 ⟨1111, 1000⟩).lt ⟨1111, 1000⟩ :=
  ⟨rfl, by decide, by decide⟩

/-- C8 amended: `latency_seconds` is rounded to two decimal places at
computation time, when the OpenAI and Google adapters derive it from the
end and creation timestamps — every latency they emit is a fixed point of
two-decimal rounding — while `to_json` serializes the field unchanged and a
serialize/deserialize round trip returns the report intact. -/
theorem C8_amended_rounding_at_computation :
    (∀ (job : OpenAIJob) (now : Frac) (dl : DownloadOutcome)
       (rep : JobReport) (c : Nat) (q : Frac),
      openai_validate_and_create_report job now dl = .ok (rep, c) →
      rep.latency_seconds = some q → pyRound2 q = q) ∧
    (∀ (job : GoogleJob) (now : Frac) (dl : DownloadOutcome)
       (rep : JobReport) (c : Nat) (q : Frac),
      google_validate_and_create_report job now dl = .ok (rep, c) →
      rep.latency_seconds = some q → pyRound2 q = q) ∧
    (∀ rep : JobReport,
      rep.to_json.getField "latency_seconds" = optFracJ rep.latency_seconds) ∧
    (∀ rep : JobReport, JobReport.from_json rep.to_json = .ok rep) := by
  refine ⟨?_, ?_, ?_, ?_⟩
  · intro job now dl rep c q h hq
    have hl := openai_report_latency job now dl rep c h
    rw [hq] at hl
    split at hl
    · obtain rfl : q = pyRound2
          ((job.completed_at.getD (Frac.ofInt 0)).sub job.created_at) := by
        injection hl
      exact pyRound2_idem _
    · simp at hl
  · intro job now dl rep c q h hq
    have hl := google_report_latency job now dl rep c h
    rw [hq] at hl
    split at hl
    · obtain rfl : q = pyRound2
          ((job.end_time.getD (Frac.ofInt 0)).sub job.create_time) := by
        injection hl
      exact pyRound2_idem _
    · simp at hl
  · intro rep
    rfl
  · exact from_json_to_json

/-- Witness for C8 amended: the 123.45-second completed OpenAI batch has a
latency fixed under two-decimal rounding. -/
theorem C8_amended_rounding_at_computation_witness :
    (openai_validate_and_create_report completedOpenAIJob twoDays (.ok []) =
        .ok (completedOpenAIReport, 0) ∧
      completedOpenAIReport.latency_seconds = some ⟨12345, 100⟩ ∧
      pyRound2 ⟨12345, 100⟩ = ⟨12345, 100⟩) ∧
    (google_validate_and_create_report
        { name := "ggl-ok", state_name := "JOB_STATE_SUCCEEDED"
          create_time := ⟨0, 1⟩, end_time := some ⟨12345, 100⟩
          model := "models/gemini-2.5-flash-lite", dest_file_name := none }
        twoDays (.ok []) =
        .ok ({ provider := "google", job_id := "ggl-ok"
               user_assigned_status := .SUCCEEDED
               latency_seconds := some ⟨12345, 100⟩, total_tokens := none
               service_reported_details :=
                 { job_id := "ggl-ok", model := "models/gemini-2.5-flash-lite"
                   service_job_status := "JOB_STATE_SUCCEEDED"
                   created_at := "0/1Z"
                   ended_at := some "12345/100Z" } }, 0) ∧
      pyRound2 ⟨12345, 100⟩ = ⟨12345, 100⟩) ∧
    (JobReport.to_json oddLatencyReport).getField "latency_seconds" =
      optFracJ oddLatencyReport.latency_seconds ∧
    JobReport.from_json oddLatencyReport.to_json = .ok oddLatencyReport :=
  ⟨⟨rfl, rfl,
    C8_amended_rounding_at_computation.1 completedOpenAIJob twoDays (.ok [])
      completedOpenAIReport 0 ⟨12345, 100⟩ rfl rfl⟩,
   ⟨rfl,
    C8_amended_rounding_at_computation.2.1
      { name := "ggl-ok", state_name := "JOB_STATE_SUCCEEDED"
        create_time := ⟨0, 1⟩, end_time := some ⟨12345, 100⟩
        model := "models/gemini-2.5-flash-lite", dest_file_name := none }
      twoDays (.ok [])
      { provider := "google", job_id := "ggl-ok"
        user_assigned_status := .SUCCEEDED
        latency_seconds := some ⟨12345, 100⟩, total_tokens := none
        service_reported_details :=
          { job_id := "ggl-ok", model := "models/gemini-2.5-flash-lite"
            service_job_status := "JOB_STATE_SUCCEEDED"
            created_at := "0/1Z"
            ended_at := some "12345/100Z" } }
      0 ⟨12345, 100⟩ rfl rfl⟩,
   C8_amended_rounding_at_computation.2.2.1 oddLatencyReport,
   C8_amended_rounding_at_computation.2.2.2 oddLatencyReport⟩

/-- C9: for the OpenAI and Anthropic adapters, a job classified
`SUCCEEDED` gets its `total_tokens` by downloading the results artifact and
summing the per-line usage contributions; a failure of this optional step
degrades `total_tokens` to null without affecting whether classification
succeeds. -/
theorem C9_token_accounting_is_nonfatal :
    (∀ (job : OpenAIJob) (now : Frac) (lines : List Int)
       (rep : JobReport) (c : Nat),
      openai_validate_and_create_report job now (.ok lines) = .ok (rep, c) →
      rep.user_assigned_status = .SUCCEEDED →
      optStrTruthy job.output_file_id = true →
      rep.total_tokens = some (lines.foldl (· + ·) 0)) ∧
    (∀ (job : OpenAIJob) (now : Frac) (rep : JobReport) (c : Nat),
      openai_validate_and_create_report job now (.error ()) = .ok (rep, c) →
      rep.total_tokens = none) ∧
    (∀ (job : OpenAIJob) (now : Frac) (dl dl' : DownloadOutcome),
      exceptIsOk (openai_validate_and_create_report job now dl) =
        exceptIsOk (openai_validate_and_create_report job now dl')) ∧
    (∀ (job : AnthropicJob) (now : Frac) (lines : List Int)
       (rep : JobReport) (c : Nat),
      anthropic_validate_and_create_report job now (.ok lines) =
        .ok (rep, c) →
      rep.user_assigned_status = .SUCCEEDED →
      optStrTruthy job.results_url = true →
      rep.total_tokens = some (lines.foldl (· + ·) 0)) ∧
    (∀ (job : AnthropicJob) (now : Frac) (rep : JobReport) (c : Nat),
      anthropic_validate_and_create_report job now (.error ()) =
        .ok (rep, c) →
      rep.total_tokens = none) ∧
    (∀ (job : AnthropicJob) (now : Frac) (dl dl' : DownloadOutcome),
      exceptIsOk (anthropic_validate_and_create_report job now dl) =
        exceptIsOk (anthropic_validate_and_create_report job now dl')) := by
  refine ⟨?_, ?_, openai_okness_independent, ?_, ?_,
    anthropic_okness_independent⟩
  · intro job now lines rep c h hs ho
    obtain ⟨htok, hst⟩ := openai_report_tokens job now (.ok lines) rep c h
    simp [htok, hs, openai_calculate_total_tokens, hst hs, ho]
  · intro job now rep c h
    obtain ⟨htok, -⟩ := openai_report_tokens job now (.error ()) rep c h
    rw [htok]
    split_ifs <;> simp [openai_calculate_total_tokens]
  · intro job now lines rep c h hs ho
    obtain ⟨htok, hst⟩ := anthropic_report_tokens job now (.ok lines) rep c h
    simp [htok, hs, anthropic_calculate_total_tokens, hst hs, ho]
  · intro job now rep c h
    obtain ⟨htok, -⟩ := anthropic_report_tokens job now (.error ()) rep c h
    rw [htok]
    split_ifs <;> simp [anthropic_calculate_total_tokens]

/-- Witness for C9: the completed OpenAI batch sums 15 + 25 + 35 = 75
tokens on a successful download and degrades to null on a failed one; the
ended Anthropic batch sums 40 + 50 = 90 and degrades likewise, and
classification succeeds either way. -/
theorem C9_token_accounting_is_nonfatal_witness :
    (openai_validate_and_create_report tokenOpenAIJob twoDays
        (.ok [15, 25, 35]) = .ok (tokenOpenAIReport, 0) ∧
      tokenOpenAIReport.user_assigned_status = .SUCCEEDED ∧
      optStrTruthy tokenOpenAIJob.output_file_id = true ∧
      tokenOpenAIReport.total_tokens = some ([15, 25, 35].foldl (· + ·) 0)) ∧
    (openai_validate_and_create_report tokenOpenAIJob twoDays (.error ()) =
        .ok ({ tokenOpenAIReport with total_tokens := none }, 0) ∧
      ({ tokenOpenAIReport with total_tokens := none } :
        JobReport).total_tokens = none) ∧
    (anthropic_validate_and_create_report tokenAnthropicJob twoDays
        (.ok [40, 50]) = .ok (tokenAnthropicReport, 0) ∧
      tokenAnthropicReport.total_tokens = some ([40, 50].foldl (· + ·) 0)) ∧
    (anthropic_validate_and_create_report tokenAnthropicJob twoDays
        (.error ()) = .ok (tokenAnthropicReportNoDl, 0) ∧
      tokenAnthropicReportNoDl.total_tokens = none) ∧
    exceptIsOk (anthropic_validate_and_create_report tokenAnthropicJob
        twoDays (.ok [40, 50])) =
      exceptIsOk (anthropic_validate_and_create_report tokenAnthropicJob
        twoDays (.error ())) :=
  ⟨⟨rfl, rfl, rfl,
    C9_token_accounting_is_nonfatal.1 tokenOpenAIJob twoDays [15, 25, 35]
      tokenOpenAIReport 0 rfl rfl rfl⟩,
   ⟨rfl,
    C9_token_accounting_is_nonfatal.2.1 tokenOpenAIJob twoDays
      { tokenOpenAIReport with total_tokens := none } 0 rfl⟩,
   ⟨rfl,
    C9_token_accounting_is_nonfatal.2.2.2.1 tokenAnthropicJob twoDays
      [40, 50] tokenAnthropicReport 0 rfl rfl rfl⟩,
   ⟨rfl,
    C9_token_accounting_is_nonfatal.2.2.2.2.1 tokenAnthropicJob twoDays
      tokenAnthropicReportNoDl 0 rfl⟩,
   C9_token_accounting_is_nonfatal.2.2.2.2.2 tokenAnthropicJob twoDays
     (.ok [40, 50]) (.error ())⟩

/-- Counterexample to C10: a persisted non-terminal record whose object
lacks the `job_id` key is not skipped silently — deserialization fails and
the pass aborts with zero calls and zero output, never reaching the
following record that the same provider interaction would have
processed. -/
theorem C10_counterexample :
    check_jobs_from_file genFresh
      [missingIdLine, (inProgressReport "job-2").to_json] =
      ⟨[], 0, some "missing or non-string field job_id"⟩ ∧
    genFresh "job-2" = (.ok (some (freshReport "job-2")), 1) :=
  ⟨rfl, rfl⟩

/-- C10 amended: a persisted non-terminal record whose `job_id` is the
empty string is skipped silently — no provider call, no output line, and
the loop continues with the remaining lines — but a record missing the
`job_id` key altogether makes deserialization fail and aborts the pass. -/
theorem C10_amended_empty_id_skipped :
    (∀ (gen : String → Except String (Option JobReport) × Nat)
       (l : JVal) (rest : List JVal) (r : JobReport),
      JobReport.from_json l = .ok r →
      r.user_assigned_status.is_terminal = false →
      r.job_id = "" →
      check_jobs_from_file gen (l :: rest) = check_jobs_from_file gen rest) ∧
    (∀ (gen : String → Except String (Option JobReport) × Nat)
       (rest : List JVal),
      check_jobs_from_file gen (missingIdLine :: rest) =
        ⟨[], 0, some "missing or non-string field job_id"⟩) := by
  constructor
  · intro gen l rest r h ht hid
    simp [check_jobs_from_file, h, ht, hid]
  · intro gen rest
    have hbad : JobReport.from_json missingIdLine =
        .error "missing or non-string field job_id" := rfl
    simp [check_jobs_from_file, hbad]

/-- Witness for C10 amended: a non-terminal record with an empty job id is
passed over without effect, and the key-less record aborts the pass. -/
theorem C10_amended_empty_id_skipped_witness :
    (JobReport.from_json (inProgressReport "").to_json =
        .ok (inProgressReport "") ∧
      (inProgressReport "").user_assigned_status.is_terminal = false ∧
      (inProgressReport "").job_id = "" ∧
      check_jobs_from_file genFresh [(inProgressReport "").to_json] =
        check_jobs_from_file genFresh []) ∧
    check_jobs_from_file genFresh [missingIdLine] =
      ⟨[], 0, some "missing or non-string field job_id"⟩ :=
  ⟨⟨rfl, rfl, rfl,
    C10_amended_empty_id_skipped.1 genFresh (inProgressReport "").to_json []
      (inProgressReport "") rfl rfl rfl⟩,
   C10_amended_empty_id_skipped.2 genFresh []⟩

/-- Witness for C1: the round trip holds at a concrete terminal report. -/
theorem C1_report_roundtrip_witness :
    JobReport.from_json terminalReport1.to_json = .ok terminalReport1 :=
  C1_report_roundtrip terminalReport1
